import Mathlib

/-!
Shallow embedding of `src/blockstore/blockstored.py` (the blockstored RPC
daemon of the Blockstore name-registration service) and proofs about the
behaviour of its endpoint commands, its indexer loop and its server control.

Modelling conventions:
* Python dict replies become `Reply.dict` over an association list of
  string keys and `JVal` values; a Python `None` result is `Reply.pyNone`;
  the opaque response object returned by an operation constructor
  (preorder_name, register_name, ...) is `Reply.resp` with a numeric tag.
* A raised, uncaught Python exception is `Except.error` in the handler's
  result type; a normal return is `Except.ok`.
* External collaborators (the state engine `get_db_state()`, the bitcoind
  client, the UTXO-provider client, and the transaction constructors
  imported from `lib`) live outside this file; their observable behaviour
  on the one call the daemon makes is a field of `Env`, so a theorem
  quantified over `Env` covers every behaviour of the collaborators.
* Each handler returns the state engine it finished with alongside its
  reply; the source handlers only ever call the read methods `get_name`,
  `get_current_consensus` and `is_name_registered`, so every handler
  returns `env.db` unchanged.
-/

namespace Blockstored

/-- JSON-like values appearing in replies of blockstored handlers. -/
inductive JVal where
  | s : String → JVal
  | n : Nat → JVal
  | null : JVal
  | strlist : List String → JVal
  deriving DecidableEq, Repr

/-- A value returned by a handler: a dict, an opaque constructor response
(tagged by a number), or the Python value None. -/
inductive Reply where
  | dict : List (String × JVal) → Reply
  | resp : Nat → Reply
  | pyNone : Reply
  deriving DecidableEq, Repr

/-- The one-key error dicts the handlers build literally in the source,
for example the dict with key error and value "Name already registered". -/
def errdict (msg : String) : Reply :=
  Reply.dict [("error", JVal.s msg)]

/-- Whether a reply is a dict carrying an error key. -/
def hasErrorKey : Reply → Bool
  | Reply.dict kvs => kvs.any (fun kv => kv.1 == "error")
  | _ => false

/-- A raised Python exception, carrying the final line of its traceback. -/
inductive PyExn where
  | attributeError : PyExn
  | raised : String → PyExn
  deriving DecidableEq, Repr

/-- The traceback lines `traceback.format_exc().splitlines()` produces for
an exception; the last line names the exception. -/
def excLines : PyExn → List String
  | PyExn.attributeError =>
      ["Traceback (most recent call last):",
       "AttributeError: NoneType object has no attribute getinfo"]
  | PyExn.raised msg => ["Traceback (most recent call last):", msg]

/-- Embedding of `json_traceback` (blockstored.py lines 167-172): an error
dict whose error value is the last traceback line and whose traceback value
is the full line list. -/
def json_traceback (e : PyExn) : Reply :=
  Reply.dict [("error", JVal.s ((excLines e).getLastD "")),
              ("traceback", JVal.strlist (excLines e))]

/-- Python truthiness of the consensus-hash value returned by
`db.get_current_consensus()`: `not x` holds for None and for the empty
string. -/
def pyFalsy : Option String → Bool
  | none => true
  | some s => s == ""

/-- Python `str(x)` on the same value: None prints as "None". -/
def pyStr : Option String → String
  | none => "None"
  | some s => s

/-- Read surface of the blockstore state engine handle returned by
`get_db_state()`: the three read methods the daemon calls, plus the
engine's last fully committed block height (`lastblock`), which the
virtualchain state engine tracks but the daemon never reads. -/
structure StateEngine where
  get_name : Option String → Option (List (String × JVal))
  get_current_consensus : Option String
  is_name_registered : String → Bool
  lastblock : Nat

/-- The `getinfo` result of the bitcoind JSON-RPC client: the daemon reads
only its blocks field. -/
structure BitcoindInfo where
  blocks : Nat
  deriving DecidableEq, Repr

/-- The UTXO-provider client `get_utxo_provider_client` can hand back:
either the chain.com client or the fallback bitcoind client. -/
inductive BlockchainClient where
  | chaincom : BlockchainClient
  | bitcoind_fallback : BlockchainClient
  deriving DecidableEq, Repr

/-- Embedding of `get_utxo_provider_client` (blockstored.py lines 175-209):
one attempt to build a ChainComClient, on failure one attempt to build a
BitcoindClient, on failure None. The two booleans record whether each
construction succeeds. There is no retry and no backoff: each constructor
is tried exactly once. -/
def get_utxo_provider_client (chaincom_ok : Bool) (bitcoindclient_ok : Bool) :
    Option BlockchainClient :=
  if chaincom_ok then some BlockchainClient.chaincom
  else if bitcoindclient_ok then some BlockchainClient.bitcoind_fallback
  else none

/-- Environment of one handler call: the observable behaviour of every
collaborator the handler may touch. Constructor fields give the outcome
of the corresponding `lib` transaction-constructor call on the arguments
the handler passes (a raised exception or an opaque response). -/
structure Env where
  chaincom_ok : Bool
  bitcoindclient_ok : Bool
  db : StateEngine
  bitcoind : Option (Except PyExn BitcoindInfo)
  preorder_name : String → String → String → BlockchainClient → Except PyExn Nat
  register_name : String → String → BlockchainClient → Except PyExn Nat
  update_name : String → String → String → String → BlockchainClient → Except PyExn Nat
  transfer_name : String → String → Bool → String → String → BlockchainClient → Except PyExn Nat
  revoke_name : String → String → BlockchainClient → Except PyExn Nat
  ns_preorder : String → String → String → BlockchainClient → Except PyExn Nat
  ns_reveal : String → String → String → String → String → BlockchainClient → Except PyExn Nat
  ns_ready : String → String → BlockchainClient → Except PyExn Nat

/-- Embedding of `BlockstoredRPC.jsonrpc_ping` (lines 227-230). -/
def jsonrpc_ping (env : Env) : Except PyExn (Reply × StateEngine) :=
  Except.ok (Reply.dict [("status", JVal.s "alive")], env.db)

/-- Embedding of `BlockstoredRPC.jsonrpc_lookup` (lines 233-245). The
source computes `name_record = engine.get_name(name)` and then tests
`if name is None` — the argument, not the record — so the error branch
fires only when the caller passed None, and an unregistered name makes the
handler return `name_record`, which is the Python value None. -/
def jsonrpc_lookup (env : Env) (name : Option String) :
    Except PyExn (Reply × StateEngine) :=
  match env.db.get_name name, name with
  | _, none => Except.ok (errdict "Not found.", env.db)
  | some record, some _ => Except.ok (Reply.dict record, env.db)
  | none, some _ => Except.ok (Reply.pyNone, env.db)

/-- The consensus value placed in the getinfo reply. -/
def consensusJVal : Option String → JVal
  | none => JVal.null
  | some s => JVal.s s

/-- Embedding of `BlockstoredRPC.jsonrpc_getinfo` (lines 248-258). The
blocks field is `bitcoind.getinfo()['blocks']` — the block count reported
by the bitcoind node, not the state engine's committed height. There is no
exception handler: if `get_bitcoind()` returned None the attribute access
raises, and if the RPC call itself raises the exception propagates. -/
def jsonrpc_getinfo (env : Env) : Except PyExn (Reply × StateEngine) :=
  match env.bitcoind with
  | none => Except.error PyExn.attributeError
  | some (Except.error e) => Except.error e
  | some (Except.ok info) =>
      Except.ok (Reply.dict
        [("blocks", JVal.n info.blocks),
         ("consensus", consensusJVal env.db.get_current_consensus)], env.db)

/-- Embedding of `BlockstoredRPC.jsonrpc_preorder` (lines 261-284): fail if
no UTXO client; fail with "Nameset snapshot not found." if the engine has
no (truthy) consensus hash; fail with "Name already registered" if the name
is registered; otherwise call `preorder_name` inside try/except, turning a
raised exception into `json_traceback`. -/
def jsonrpc_preorder (env : Env) (name privatekey : String) :
    Except PyExn (Reply × StateEngine) :=
  match get_utxo_provider_client env.chaincom_ok env.bitcoindclient_ok with
  | none => Except.ok (errdict "Failed to connect to blockchain UTXO provider", env.db)
  | some client =>
      if pyFalsy env.db.get_current_consensus then
        Except.ok (errdict "Nameset snapshot not found.", env.db)
      else if env.db.is_name_registered name then
        Except.ok (errdict "Name already registered", env.db)
      else
        match env.preorder_name name (pyStr env.db.get_current_consensus) privatekey client with
        | Except.error e => Except.ok (json_traceback e, env.db)
        | Except.ok r => Except.ok (Reply.resp r, env.db)

/-- Embedding of `BlockstoredRPC.jsonrpc_register` (lines 287-306): fail if
no UTXO client; fail with "Name already registered" if the name is
registered; otherwise call `register_name` inside try/except. No consensus
hash is fetched or checked. -/
def jsonrpc_register (env : Env) (name privatekey : String) :
    Except PyExn (Reply × StateEngine) :=
  match get_utxo_provider_client env.chaincom_ok env.bitcoindclient_ok with
  | none => Except.ok (errdict "Failed to connect to blockchain UTXO provider", env.db)
  | some client =>
      if env.db.is_name_registered name then
        Except.ok (errdict "Name already registered", env.db)
      else
        match env.register_name name privatekey client with
        | Except.error e => Except.ok (json_traceback e, env.db)
        | Except.ok r => Except.ok (Reply.resp r, env.db)

/-- Embedding of `BlockstoredRPC.jsonrpc_update` (lines 309-329): fetches
the consensus hash but never checks it (a missing hash is passed on to
`update_name` as the string "None"); fails only if no UTXO client;
otherwise calls `update_name` inside try/except. -/
def jsonrpc_update (env : Env) (name data_hash privatekey : String) :
    Except PyExn (Reply × StateEngine) :=
  match get_utxo_provider_client env.chaincom_ok env.bitcoindclient_ok with
  | none => Except.ok (errdict "Failed to connect to blockchain UTXO provider", env.db)
  | some client =>
      match env.update_name name data_hash (pyStr env.db.get_current_consensus) privatekey client with
      | Except.error e => Except.ok (json_traceback e, env.db)
      | Except.ok r => Except.ok (Reply.resp r, env.db)

/-- Embedding of `BlockstoredRPC.jsonrpc_transfer` (lines 332-351): same
shape as update — the consensus hash is fetched but never checked. -/
def jsonrpc_transfer (env : Env) (name address : String) (keep_data : Bool)
    (privatekey : String) : Except PyExn (Reply × StateEngine) :=
  match get_utxo_provider_client env.chaincom_ok env.bitcoindclient_ok with
  | none => Except.ok (errdict "Failed to connect to blockchain UTXO provider", env.db)
  | some client =>
      match env.transfer_name name address keep_data (pyStr env.db.get_current_consensus) privatekey client with
      | Except.error e => Except.ok (json_traceback e, env.db)
      | Except.ok r => Except.ok (Reply.resp r, env.db)

/-- Embedding of `BlockstoredRPC.jsonrpc_renew` (lines 354-358): the body
is exactly `return self.jsonrpc_register(name, privatekey)`. -/
def jsonrpc_renew (env : Env) (name privatekey : String) :
    Except PyExn (Reply × StateEngine) :=
  jsonrpc_register env name privatekey

/-- Embedding of `BlockstoredRPC.jsonrpc_revoke` (lines 361-377). -/
def jsonrpc_revoke (env : Env) (name privatekey : String) :
    Except PyExn (Reply × StateEngine) :=
  match get_utxo_provider_client env.chaincom_ok env.bitcoindclient_ok with
  | none => Except.ok (errdict "Failed to connect to blockchain UTXO provider", env.db)
  | some client =>
      match env.revoke_name name privatekey client with
      | Except.error e => Except.ok (json_traceback e, env.db)
      | Except.ok r => Except.ok (Reply.resp r, env.db)

/-- Embedding of `BlockstoredRPC.jsonrpc_namespace_preorder` (lines
380-401): fetches the consensus hash after the client check but never
checks it (a missing hash reaches `namespace_preorder` as "None"). -/
def jsonrpc_namespace_preorder (env : Env) (namespace_id privatekey : String) :
    Except PyExn (Reply × StateEngine) :=
  match get_utxo_provider_client env.chaincom_ok env.bitcoindclient_ok with
  | none => Except.ok (errdict "Failed to connect to blockchain UTXO provider", env.db)
  | some client =>
      match env.ns_preorder namespace_id (pyStr env.db.get_current_consensus) privatekey client with
      | Except.error e => Except.ok (json_traceback e, env.db)
      | Except.ok r => Except.ok (Reply.resp r, env.db)

/-- Embedding of `BlockstoredRPC.jsonrpc_namespace_reveal` (lines 404-421).
The int/float conversions of the numeric arguments happen inside the
try/except, so they are folded into the collaborator call on the raw
argument strings. -/
def jsonrpc_namespace_reveal (env : Env)
    (namespace_id lifetime base_name_cost cost_decay_rate privatekey : String) :
    Except PyExn (Reply × StateEngine) :=
  match get_utxo_provider_client env.chaincom_ok env.bitcoindclient_ok with
  | none => Except.ok (errdict "Failed to connect to blockchain UTXO provider", env.db)
  | some client =>
      match env.ns_reveal namespace_id lifetime base_name_cost cost_decay_rate privatekey client with
      | Except.error e => Except.ok (json_traceback e, env.db)
      | Except.ok r => Except.ok (Reply.resp r, env.db)

/-- Embedding of `BlockstoredRPC.jsonrpc_namespace_ready` (lines 424-439). -/
def jsonrpc_namespace_ready (env : Env) (namespace_id privatekey : String) :
    Except PyExn (Reply × StateEngine) :=
  match get_utxo_provider_client env.chaincom_ok env.bitcoindclient_ok with
  | none => Except.ok (errdict "Failed to connect to blockchain UTXO provider", env.db)
  | some client =>
      match env.ns_ready namespace_id privatekey client with
      | Except.error e => Except.ok (json_traceback e, env.db)
      | Except.ok r => Except.ok (Reply.resp r, env.db)

/-- Observable actions of one iteration of the indexer loop. -/
inductive IndexerAction where
  | sleep : Nat → IndexerAction
  | sync_virtualchain : Nat → IndexerAction
  deriving DecidableEq, Repr

/-- Embedding of one iteration of the `while True` loop of `run_indexer`
(blockstored.py lines 457-466): sleep REINDEX_FREQUENCY seconds, call
`sync_virtualchain` with the current `last_block_id`, then query
`get_index_range`; if the query yields None, `continue` leaves
`last_block_id` unchanged, otherwise it becomes the range's second
component. `freq` is the REINDEX_FREQUENCY value from `lib.config` and
`next_block` the query result. Returns the actions performed and the
`last_block_id` the next iteration starts from. -/
def indexer_step (freq : Nat) (last_block_id : Nat)
    (next_block : Option (Nat × Nat)) : List IndexerAction × Nat :=
  ([IndexerAction.sleep freq, IndexerAction.sync_virtualchain last_block_id],
   match next_block with
   | none => last_block_id
   | some r => r.2)

/-- Signals `stop_server` and its callers use. -/
inductive Signal where
  | SIGKILL : Signal
  | SIGINT : Signal
  | SIGTERM : Signal
  deriving DecidableEq, Repr

/-- Observable filesystem/process actions of `stop_server`. -/
inductive ServerAction where
  | remove_pidfile : ServerAction
  | kill : Nat → Signal → ServerAction
  deriving DecidableEq, Repr

/-- Whitespace characters Python's `int(...)` strips from its argument. -/
def isPySpace (c : Char) : Bool :=
  c == ' ' || c == '\n' || c == '\t' || c == '\r'

/-- Accumulate a decimal value over characters; any non-digit fails. -/
def goDigits : List Char → Nat → Option Nat
  | [], acc => some acc
  | c :: cs, acc =>
      if c.isDigit then goDigits cs (acc * 10 + (c.toNat - 48)) else none

/-- Python `int(s)` on a pid string: strip surrounding whitespace, then
require a nonempty all-digit run (pids are nonnegative decimals). Returns
None when `int` would raise ValueError. -/
def pyInt (s : String) : Option Nat :=
  match ((s.data.dropWhile isPySpace).reverse.dropWhile isPySpace).reverse with
  | [] => none
  | cs => goDigits cs 0

/-- Outcome of `stop_server`: the actions it performed in order, and the
exception it raised, if any. -/
structure StopResult where
  actions : List ServerAction
  raised : Option PyExn
  deriving DecidableEq, Repr

/-- Embedding of `stop_server` (blockstored.py lines 471-493). `pidfile` is
None when opening the PID file raises (missing or unreadable), otherwise
the file's contents; `kill_ok` tells whether the `os.kill` call succeeds.
On open failure the function returns at once with no action. Otherwise it
reads the contents, removes the PID file, converts the contents with
`int(...)` — an unhandled ValueError if they do not parse — and sends
SIGKILL to that pid, swallowing any `os.kill` failure. -/
def stop_server (pidfile : Option String) (kill_ok : Bool) : StopResult :=
  match pidfile with
  | none => { actions := [], raised := none }
  | some pid_data =>
      match pyInt pid_data with
      | none =>
          { actions := [ServerAction.remove_pidfile],
            raised := some (PyExn.raised "ValueError: invalid literal for int") }
      | some pid =>
          if kill_ok then
            { actions := [ServerAction.remove_pidfile,
                          ServerAction.kill pid Signal.SIGKILL],
              raised := none }
          else
            { actions := [ServerAction.remove_pidfile], raised := none }

/-- A state engine with nothing registered and no consensus hash yet. -/
def dbEmpty : StateEngine :=
  { get_name := fun _ => none,
    get_current_consensus := none,
    is_name_registered := fun _ => false,
    lastblock := 0 }

/-- A state engine holding the single name "alice" with consensus hash
"c500" at committed height 500. -/
def dbAlice : StateEngine :=
  { get_name := fun n => if n == some "alice"
      then some [("address", JVal.s "addrA"), ("value_hash", JVal.null)]
      else none,
    get_current_consensus := some "c500",
    is_name_registered := fun n => n == "alice",
    lastblock := 500 }

/-- A baseline environment: both client constructions succeed, bitcoind
reports 507 blocks, every transaction constructor returns a distinct
opaque response. -/
def envBase : Env :=
  { chaincom_ok := true,
    bitcoindclient_ok := true,
    db := dbAlice,
    bitcoind := some (Except.ok { blocks := 507 }),
    preorder_name := fun _ _ _ _ => Except.ok 1,
    register_name := fun _ _ _ => Except.ok 2,
    update_name := fun _ _ _ _ _ => Except.ok 3,
    transfer_name := fun _ _ _ _ _ _ => Except.ok 4,
    revoke_name := fun _ _ _ => Except.ok 5,
    ns_preorder := fun _ _ _ _ => Except.ok 6,
    ns_reveal := fun _ _ _ _ _ _ => Except.ok 7,
    ns_ready := fun _ _ _ => Except.ok 8 }

/-- The baseline environment before the engine has produced any consensus
hash (and with no names registered). -/
def envNoConsensus : Env := { envBase with db := dbEmpty }

/-- The baseline environment with both UTXO-client constructions failing. -/
def envNoUtxo : Env := { envBase with chaincom_ok := false, bitcoindclient_ok := false }

/-- The baseline environment with no reachable bitcoind client:
`get_bitcoind()` returned None. -/
def envNoBitcoind : Env := { envBase with bitcoind := none }

/-- C2: the claim says lookup returns the stored record for a registered
name and the dict with error "Not found" for an unregistered one. The code
tests `name is None` instead of `name_record is None`, so for an
unregistered (non-None) name it returns the Python value None, never the
error dict; the registered half behaves as claimed. This theorem evaluates
the handler at the failing input "ghost" (unregistered in `dbAlice`). -/
theorem c2_lookup_unregistered_returns_none :
    jsonrpc_lookup envBase (some "ghost") = Except.ok (Reply.pyNone, envBase.db) ∧
    Reply.pyNone ≠ errdict "Not found." ∧
    jsonrpc_lookup envBase (some "alice") =
      Except.ok (Reply.dict [("address", JVal.s "addrA"), ("value_hash", JVal.null)],
                 envBase.db) :=
  ⟨rfl, by decide, rfl⟩

/-- C3 counterexample: in `envBase` the bitcoind node reports 507 blocks
while the state engine's last fully committed height is 500, and the
getinfo reply carries blocks = 507, not 500 — so the blocks field does not
equal the engine's committed height, refuting the claim as stated. -/
theorem c3_counterexample :
    jsonrpc_getinfo envBase =
      Except.ok (Reply.dict [("blocks", JVal.n 507), ("consensus", JVal.s "c500")],
                 envBase.db) ∧
    envBase.db.lastblock = 500 ∧ (507 : Nat) ≠ 500 :=
  ⟨rfl, rfl, by decide⟩

/-- C3 amended: when the bitcoind client is reachable and its getinfo call
succeeds, the getinfo reply's blocks field equals the block count reported
by the bitcoind node (which need not equal the engine's committed height)
and its consensus field equals the engine's current consensus hash. -/
theorem c3_getinfo_amended (env : Env) (info : BitcoindInfo)
    (hb : env.bitcoind = some (Except.ok info)) :
    jsonrpc_getinfo env =
      Except.ok (Reply.dict
        [("blocks", JVal.n info.blocks),
         ("consensus", consensusJVal env.db.get_current_consensus)], env.db) := by
  simp [jsonrpc_getinfo, hb]

/-- C3 witness: the amended statement evaluated in `envBase`. -/
theorem c3_getinfo_witness :
    jsonrpc_getinfo envBase =
      Except.ok (Reply.dict
        [("blocks", JVal.n 507),
         ("consensus", consensusJVal envBase.db.get_current_consensus)], envBase.db) :=
  c3_getinfo_amended envBase { blocks := 507 } rfl

/-- C4: the claim says renew on a registered name returns signed
transaction bytes. The handler body is `return self.jsonrpc_register(...)`
and register rejects every registered name, so renew of the registered
name "alice" returns the error dict "Name already registered" and never
reaches a constructor — evaluated here at that failing input. -/
theorem c4_renew_registered_name_errors :
    jsonrpc_renew envBase "alice" "key" =
      Except.ok (errdict "Name already registered", envBase.db) ∧
    hasErrorKey (errdict "Name already registered") = true ∧
    (∀ r : Nat, errdict "Name already registered" ≠ Reply.resp r) :=
  ⟨rfl, rfl, fun _ => by simp [errdict]⟩

/-- C8: when `get_index_range` yields no result, one iteration of the
indexer loop performs exactly a sleep of REINDEX_FREQUENCY seconds and a
`sync_virtualchain` call with the current last block id, and hands the
same last block id to the next iteration — whose sync call therefore uses
the unchanged id, so no block is skipped across the unavailability. -/
theorem c8_indexer_unavailable_retries (freq l : Nat) (q : Option (Nat × Nat)) :
    indexer_step freq l none =
      ([IndexerAction.sleep freq, IndexerAction.sync_virtualchain l], l) ∧
    (indexer_step freq (indexer_step freq l none).2 q).1 =
      [IndexerAction.sleep freq, IndexerAction.sync_virtualchain l] :=
  ⟨rfl, rfl⟩

/-- C10: when the PID file cannot be opened, `stop_server` returns
silently having performed no action; when it holds a parseable pid, the
function removes the PID file and then sends SIGKILL — not a graceful
signal — to that pid, in that order. -/
theorem c10_stop_server_behaviour (k : Bool) (s : String) (pid : Nat)
    (h : pyInt s = some pid) :
    stop_server none k = { actions := [], raised := none } ∧
    stop_server (some s) true =
      { actions := [ServerAction.remove_pidfile,
                    ServerAction.kill pid Signal.SIGKILL],
        raised := none } := by
  refine ⟨rfl, ?_⟩
  simp [stop_server, h]

/-- C10 witness: `stop_server` evaluated on a missing PID file and on a
PID file holding "12345". -/
theorem c10_stop_server_witness :
    stop_server none true = { actions := [], raised := none } ∧
    stop_server (some "12345") true =
      { actions := [ServerAction.remove_pidfile,
                    ServerAction.kill 12345 Signal.SIGKILL],
        raised := none } :=
  c10_stop_server_behaviour true "12345" 12345 (by decide)

/-- C1 counterexample: with the engine still without a consensus hash (and
the UTXO client available), the update command does not return the dict
with error "Nameset snapshot not found": it calls the constructor anyway
and returns its response — so not every consensus-requiring command fails
as the claim states. -/
theorem c1_counterexample :
    pyFalsy envNoConsensus.db.get_current_consensus = true ∧
    jsonrpc_update envNoConsensus "alice" "hash" "key" =
      Except.ok (Reply.resp 3, envNoConsensus.db) ∧
    Reply.resp 3 ≠ errdict "Nameset snapshot not found" ∧
    Reply.resp 3 ≠ errdict "Nameset snapshot not found." :=
  ⟨rfl, rfl, by decide, by decide⟩

/-- C1 amended: of the four consensus-requiring commands only preorder
checks the consensus hash; when the engine has produced none it returns
the dict with error "Nameset snapshot not found." (note the trailing
period in the source string) and, being independent of every constructor
field of the environment, constructs no transaction. Update, transfer and
namespace_preorder instead pass the missing hash to their constructor
stringified as "None" and return the constructor's response. -/
theorem c1_consensus_guard_amended (env : Env) (c : BlockchainClient)
    (n d a pk ns : String) (kd : Bool) (u t p : Nat)
    (hc : get_utxo_provider_client env.chaincom_ok env.bitcoindclient_ok = some c)
    (hcons : env.db.get_current_consensus = none)
    (hu : env.update_name n d "None" pk c = Except.ok u)
    (ht : env.transfer_name n a kd "None" pk c = Except.ok t)
    (hp : env.ns_preorder ns "None" pk c = Except.ok p) :
    jsonrpc_preorder env n pk =
      Except.ok (errdict "Nameset snapshot not found.", env.db) ∧
    jsonrpc_update env n d pk = Except.ok (Reply.resp u, env.db) ∧
    jsonrpc_transfer env n a kd pk = Except.ok (Reply.resp t, env.db) ∧
    jsonrpc_namespace_preorder env ns pk = Except.ok (Reply.resp p, env.db) := by
  refine ⟨?_, ?_, ?_, ?_⟩ <;>
    simp [jsonrpc_preorder, jsonrpc_update, jsonrpc_transfer,
          jsonrpc_namespace_preorder, hc, hcons, pyFalsy, pyStr, hu, ht, hp]

/-- C1 witness: the amended statement evaluated in `envNoConsensus`. -/
theorem c1_consensus_guard_witness :
    jsonrpc_preorder envNoConsensus "n" "k" =
      Except.ok (errdict "Nameset snapshot not found.", envNoConsensus.db) ∧
    jsonrpc_update envNoConsensus "n" "d" "k" =
      Except.ok (Reply.resp 3, envNoConsensus.db) ∧
    jsonrpc_transfer envNoConsensus "n" "a" true "k" =
      Except.ok (Reply.resp 4, envNoConsensus.db) ∧
    jsonrpc_namespace_preorder envNoConsensus "ns" "k" =
      Except.ok (Reply.resp 6, envNoConsensus.db) :=
  c1_consensus_guard_amended envNoConsensus BlockchainClient.chaincom
    "n" "d" "a" "k" "ns" true 3 4 6 rfl rfl rfl rfl rfl

/-- C5 counterexample: when both UTXO-client constructions fail, the
preorder command's reply is the dict with error "Failed to connect to
blockchain UTXO provider" — the transient provider failure does appear as
an error in an endpoint command's reply, refuting the claim. -/
theorem c5_counterexample :
    get_utxo_provider_client false false = none ∧
    jsonrpc_preorder envNoUtxo "n" "k" =
      Except.ok (errdict "Failed to connect to blockchain UTXO provider", envNoUtxo.db) ∧
    hasErrorKey (errdict "Failed to connect to blockchain UTXO provider") = true :=
  ⟨rfl, rfl, rfl⟩

/-- C5 amended: a failure to reach the UTXO provider is not retried —
`get_utxo_provider_client` yields None only when its single chain.com
attempt and its single bitcoind fallback attempt both fail — and each of
the nine endpoint commands that consult the provider (preorder, register,
update, transfer, renew, revoke and the three namespace commands; ping,
lookup and getinfo never do) then reports it to the caller as the dict
with error "Failed to connect to blockchain UTXO provider". -/
theorem c5_utxo_failure_amended (env : Env) (n d a ns lt bc cd pk : String)
    (kd : Bool)
    (h : get_utxo_provider_client env.chaincom_ok env.bitcoindclient_ok = none) :
    env.chaincom_ok = false ∧ env.bitcoindclient_ok = false ∧
    jsonrpc_preorder env n pk =
      Except.ok (errdict "Failed to connect to blockchain UTXO provider", env.db) ∧
    jsonrpc_register env n pk =
      Except.ok (errdict "Failed to connect to blockchain UTXO provider", env.db) ∧
    jsonrpc_update env n d pk =
      Except.ok (errdict "Failed to connect to blockchain UTXO provider", env.db) ∧
    jsonrpc_transfer env n a kd pk =
      Except.ok (errdict "Failed to connect to blockchain UTXO provider", env.db) ∧
    jsonrpc_renew env n pk =
      Except.ok (errdict "Failed to connect to blockchain UTXO provider", env.db) ∧
    jsonrpc_revoke env n pk =
      Except.ok (errdict "Failed to connect to blockchain UTXO provider", env.db) ∧
    jsonrpc_namespace_preorder env ns pk =
      Except.ok (errdict "Failed to connect to blockchain UTXO provider", env.db) ∧
    jsonrpc_namespace_reveal env ns lt bc cd pk =
      Except.ok (errdict "Failed to connect to blockchain UTXO provider", env.db) ∧
    jsonrpc_namespace_ready env ns pk =
      Except.ok (errdict "Failed to connect to blockchain UTXO provider", env.db) := by
  have hco : env.chaincom_ok = false := by
    cases hcc : env.chaincom_ok
    · rfl
    · rw [get_utxo_provider_client, hcc] at h
      simp at h
  have hbo : env.bitcoindclient_ok = false := by
    cases hbc : env.bitcoindclient_ok
    · rfl
    · rw [get_utxo_provider_client, hco, hbc] at h
      simp at h
  refine ⟨hco, hbo, ?_, ?_, ?_, ?_, ?_, ?_, ?_, ?_, ?_⟩ <;>
    simp [jsonrpc_preorder, jsonrpc_register, jsonrpc_update, jsonrpc_transfer,
          jsonrpc_renew, jsonrpc_revoke, jsonrpc_namespace_preorder,
          jsonrpc_namespace_reveal, jsonrpc_namespace_ready, h]

/-- C5 witness: the amended statement evaluated in `envNoUtxo`. -/
theorem c5_utxo_failure_witness :
    envNoUtxo.chaincom_ok = false ∧ envNoUtxo.bitcoindclient_ok = false ∧
    jsonrpc_preorder envNoUtxo "n" "k" =
      Except.ok (errdict "Failed to connect to blockchain UTXO provider", envNoUtxo.db) ∧
    jsonrpc_register envNoUtxo "n" "k" =
      Except.ok (errdict "Failed to connect to blockchain UTXO provider", envNoUtxo.db) ∧
    jsonrpc_update envNoUtxo "n" "d" "k" =
      Except.ok (errdict "Failed to connect to blockchain UTXO provider", envNoUtxo.db) ∧
    jsonrpc_transfer envNoUtxo "n" "a" true "k" =
      Except.ok (errdict "Failed to connect to blockchain UTXO provider", envNoUtxo.db) ∧
    jsonrpc_renew envNoUtxo "n" "k" =
      Except.ok (errdict "Failed to connect to blockchain UTXO provider", envNoUtxo.db) ∧
    jsonrpc_revoke envNoUtxo "n" "k" =
      Except.ok (errdict "Failed to connect to blockchain UTXO provider", envNoUtxo.db) ∧
    jsonrpc_namespace_preorder envNoUtxo "ns" "k" =
      Except.ok (errdict "Failed to connect to blockchain UTXO provider", envNoUtxo.db) ∧
    jsonrpc_namespace_reveal envNoUtxo "ns" "10" "5" "0.5" "k" =
      Except.ok (errdict "Failed to connect to blockchain UTXO provider", envNoUtxo.db) ∧
    jsonrpc_namespace_ready envNoUtxo "ns" "k" =
      Except.ok (errdict "Failed to connect to blockchain UTXO provider", envNoUtxo.db) :=
  c5_utxo_failure_amended envNoUtxo "n" "d" "a" "ns" "10" "5" "0.5" "k" true rfl

/-- C9: with the UTXO client available (and, for preorder, a live
consensus hash), both the preorder and the register command reply with the
dict carrying error "Name already registered" for a name the state engine
reports as registered; the reply does not depend on any constructor field
of the environment, so no transaction is constructed. -/
theorem c9_already_registered (env : Env) (c : BlockchainClient) (n pk : String)
    (hc : get_utxo_provider_client env.chaincom_ok env.bitcoindclient_ok = some c)
    (hcons : pyFalsy env.db.get_current_consensus = false)
    (hreg : env.db.is_name_registered n = true) :
    jsonrpc_preorder env n pk =
      Except.ok (errdict "Name already registered", env.db) ∧
    jsonrpc_register env n pk =
      Except.ok (errdict "Name already registered", env.db) := by
  constructor <;> simp [jsonrpc_preorder, jsonrpc_register, hc, hcons, hreg]

/-- C9 witness: the statement evaluated in `envBase` at the registered
name "alice". -/
theorem c9_already_registered_witness :
    jsonrpc_preorder envBase "alice" "k" =
      Except.ok (errdict "Name already registered", envBase.db) ∧
    jsonrpc_register envBase "alice" "k" =
      Except.ok (errdict "Name already registered", envBase.db) :=
  c9_already_registered envBase BlockchainClient.chaincom "alice" "k" rfl rfl rfl

/-- A client usage error raised by an operation constructor. -/
def e0 : PyExn := PyExn.raised "Exception: no unspent outputs for sender"

/-- The baseline environment with every operation constructor raising. -/
def envCtorsFail : Env :=
  { envBase with
    preorder_name := fun _ _ _ _ => Except.error e0,
    register_name := fun _ _ _ => Except.error e0,
    update_name := fun _ _ _ _ _ => Except.error e0,
    transfer_name := fun _ _ _ _ _ _ => Except.error e0,
    revoke_name := fun _ _ _ => Except.error e0,
    ns_preorder := fun _ _ _ _ => Except.error e0,
    ns_reveal := fun _ _ _ _ _ _ => Except.error e0,
    ns_ready := fun _ _ _ => Except.error e0 }

/-- C6: when the operation constructor raises (a client usage error), each
endpoint command that reaches it catches the exception and returns
`json_traceback` — a dict carrying an error key — synchronously, and hands
back the state engine unchanged (`env.db`); the source handlers call no
mutating method of the engine. The hypotheses put each handler on the path
that reaches its constructor. -/
theorem c6_constructor_error_reply (env : Env) (c : BlockchainClient) (e : PyExn)
    (n d a ns lt bc cd pk : String) (kd : Bool)
    (hc : get_utxo_provider_client env.chaincom_ok env.bitcoindclient_ok = some c)
    (hcons : pyFalsy env.db.get_current_consensus = false)
    (hreg : env.db.is_name_registered n = false)
    (h1 : env.preorder_name n (pyStr env.db.get_current_consensus) pk c = Except.error e)
    (h2 : env.register_name n pk c = Except.error e)
    (h3 : env.update_name n d (pyStr env.db.get_current_consensus) pk c = Except.error e)
    (h4 : env.transfer_name n a kd (pyStr env.db.get_current_consensus) pk c = Except.error e)
    (h5 : env.revoke_name n pk c = Except.error e)
    (h6 : env.ns_preorder ns (pyStr env.db.get_current_consensus) pk c = Except.error e)
    (h7 : env.ns_reveal ns lt bc cd pk c = Except.error e)
    (h8 : env.ns_ready ns pk c = Except.error e) :
    hasErrorKey (json_traceback e) = true ∧
    jsonrpc_preorder env n pk = Except.ok (json_traceback e, env.db) ∧
    jsonrpc_register env n pk = Except.ok (json_traceback e, env.db) ∧
    jsonrpc_update env n d pk = Except.ok (json_traceback e, env.db) ∧
    jsonrpc_transfer env n a kd pk = Except.ok (json_traceback e, env.db) ∧
    jsonrpc_renew env n pk = Except.ok (json_traceback e, env.db) ∧
    jsonrpc_revoke env n pk = Except.ok (json_traceback e, env.db) ∧
    jsonrpc_namespace_preorder env ns pk = Except.ok (json_traceback e, env.db) ∧
    jsonrpc_namespace_reveal env ns lt bc cd pk = Except.ok (json_traceback e, env.db) ∧
    jsonrpc_namespace_ready env ns pk = Except.ok (json_traceback e, env.db) := by
  refine ⟨?_, ?_, ?_, ?_, ?_, ?_, ?_, ?_, ?_, ?_⟩ <;>
    simp [jsonrpc_preorder, jsonrpc_register, jsonrpc_update, jsonrpc_transfer,
          jsonrpc_renew, jsonrpc_revoke, jsonrpc_namespace_preorder,
          jsonrpc_namespace_reveal, jsonrpc_namespace_ready,
          json_traceback, hasErrorKey, excLines,
          hc, hcons, hreg, h1, h2, h3, h4, h5, h6, h7, h8]

/-- C6 witness: the statement evaluated in `envCtorsFail` at the
unregistered name "bob". -/
theorem c6_constructor_error_witness :
    hasErrorKey (json_traceback e0) = true ∧
    jsonrpc_preorder envCtorsFail "bob" "k" =
      Except.ok (json_traceback e0, envCtorsFail.db) ∧
    jsonrpc_register envCtorsFail "bob" "k" =
      Except.ok (json_traceback e0, envCtorsFail.db) ∧
    jsonrpc_update envCtorsFail "bob" "d" "k" =
      Except.ok (json_traceback e0, envCtorsFail.db) ∧
    jsonrpc_transfer envCtorsFail "bob" "a" true "k" =
      Except.ok (json_traceback e0, envCtorsFail.db) ∧
    jsonrpc_renew envCtorsFail "bob" "k" =
      Except.ok (json_traceback e0, envCtorsFail.db) ∧
    jsonrpc_revoke envCtorsFail "bob" "k" =
      Except.ok (json_traceback e0, envCtorsFail.db) ∧
    jsonrpc_namespace_preorder envCtorsFail "ns" "k" =
      Except.ok (json_traceback e0, envCtorsFail.db) ∧
    jsonrpc_namespace_reveal envCtorsFail "ns" "10" "5" "0.5" "k" =
      Except.ok (json_traceback e0, envCtorsFail.db) ∧
    jsonrpc_namespace_ready envCtorsFail "ns" "k" =
      Except.ok (json_traceback e0, envCtorsFail.db) :=
  c6_constructor_error_reply envCtorsFail BlockchainClient.chaincom e0
    "bob" "d" "a" "ns" "10" "5" "0.5" "k" true
    rfl rfl rfl rfl rfl rfl rfl rfl rfl rfl rfl

/-- The ping handler never raises. -/
lemma jsonrpc_ping_isOk (env : Env) : (jsonrpc_ping env).isOk = true := rfl

/-- The lookup handler never raises (its collaborator calls are reads of
the in-process state engine). -/
lemma jsonrpc_lookup_isOk (env : Env) (oname : Option String) :
    (jsonrpc_lookup env oname).isOk = true := by
  unfold jsonrpc_lookup
  repeat' split
  all_goals rfl

/-- The preorder handler returns a reply on every branch. -/
lemma jsonrpc_preorder_isOk (env : Env) (n pk : String) :
    (jsonrpc_preorder env n pk).isOk = true := by
  unfold jsonrpc_preorder
  repeat' split
  all_goals rfl

/-- The register handler returns a reply on every branch. -/
lemma jsonrpc_register_isOk (env : Env) (n pk : String) :
    (jsonrpc_register env n pk).isOk = true := by
  unfold jsonrpc_register
  repeat' split
  all_goals rfl

/-- The update handler returns a reply on every branch. -/
lemma jsonrpc_update_isOk (env : Env) (n d pk : String) :
    (jsonrpc_update env n d pk).isOk = true := by
  unfold jsonrpc_update
  repeat' split
  all_goals rfl

/-- The transfer handler returns a reply on every branch. -/
lemma jsonrpc_transfer_isOk (env : Env) (n a : String) (kd : Bool) (pk : String) :
    (jsonrpc_transfer env n a kd pk).isOk = true := by
  unfold jsonrpc_transfer
  repeat' split
  all_goals rfl

/-- The revoke handler returns a reply on every branch. -/
lemma jsonrpc_revoke_isOk (env : Env) (n pk : String) :
    (jsonrpc_revoke env n pk).isOk = true := by
  unfold jsonrpc_revoke
  repeat' split
  all_goals rfl

/-- The namespace_preorder handler returns a reply on every branch. -/
lemma jsonrpc_namespace_preorder_isOk (env : Env) (ns pk : String) :
    (jsonrpc_namespace_preorder env ns pk).isOk = true := by
  unfold jsonrpc_namespace_preorder
  repeat' split
  all_goals rfl

/-- The namespace_reveal handler returns a reply on every branch. -/
lemma jsonrpc_namespace_reveal_isOk (env : Env) (ns lt bc cd pk : String) :
    (jsonrpc_namespace_reveal env ns lt bc cd pk).isOk = true := by
  unfold jsonrpc_namespace_reveal
  repeat' split
  all_goals rfl

/-- The namespace_ready handler returns a reply on every branch. -/
lemma jsonrpc_namespace_ready_isOk (env : Env) (ns pk : String) :
    (jsonrpc_namespace_ready env ns pk).isOk = true := by
  unfold jsonrpc_namespace_ready
  repeat' split
  all_goals rfl

/-- C7 counterexample: with `get_bitcoind()` yielding None — a failure of
the bitcoind collaborator — the getinfo command raises an unhandled
AttributeError instead of returning a reply, refuting the claim that no
endpoint command raises to the transport. -/
theorem c7_counterexample :
    jsonrpc_getinfo envNoBitcoind = Except.error PyExn.attributeError := rfl

/-- C7 amended: every endpoint command except getinfo returns a reply for
every behaviour of the modelled collaborators (failures reported in the
error field, per the other theorems of this development); getinfo alone
has no exception handler, so a missing bitcoind client raises an
AttributeError and a raising `bitcoind.getinfo()` call propagates its
exception to the transport. -/
theorem c7_no_raise_amended (env : Env) (name ns d a lt bc cd pk : String)
    (oname : Option String) (kd : Bool) :
    (jsonrpc_ping env).isOk = true ∧
    (jsonrpc_lookup env oname).isOk = true ∧
    (jsonrpc_preorder env name pk).isOk = true ∧
    (jsonrpc_register env name pk).isOk = true ∧
    (jsonrpc_update env name d pk).isOk = true ∧
    (jsonrpc_transfer env name a kd pk).isOk = true ∧
    (jsonrpc_renew env name pk).isOk = true ∧
    (jsonrpc_revoke env name pk).isOk = true ∧
    (jsonrpc_namespace_preorder env ns pk).isOk = true ∧
    (jsonrpc_namespace_reveal env ns lt bc cd pk).isOk = true ∧
    (jsonrpc_namespace_ready env ns pk).isOk = true ∧
    (env.bitcoind = none → jsonrpc_getinfo env = Except.error PyExn.attributeError) ∧
    (∀ e, env.bitcoind = some (Except.error e) → jsonrpc_getinfo env = Except.error e) := by
  refine ⟨jsonrpc_ping_isOk env, jsonrpc_lookup_isOk env oname,
    jsonrpc_preorder_isOk env name pk, jsonrpc_register_isOk env name pk,
    jsonrpc_update_isOk env name d pk, jsonrpc_transfer_isOk env name a kd pk,
    jsonrpc_register_isOk env name pk, jsonrpc_revoke_isOk env name pk,
    jsonrpc_namespace_preorder_isOk env ns pk,
    jsonrpc_namespace_reveal_isOk env ns lt bc cd pk,
    jsonrpc_namespace_ready_isOk env ns pk, ?_, ?_⟩
  · intro hb
    simp [jsonrpc_getinfo, hb]
  · intro e hb
    simp [jsonrpc_getinfo, hb]

/-- C7 witness: the amended statement evaluated in `envNoBitcoind`. -/
theorem c7_no_raise_witness :
    (jsonrpc_preorder envNoBitcoind "n" "k").isOk = true ∧
    jsonrpc_getinfo envNoBitcoind = Except.error PyExn.attributeError := by
  obtain ⟨-, -, h3, -, -, -, -, -, -, -, -, h12, -⟩ :=
    c7_no_raise_amended envNoBitcoind "n" "ns" "d" "a" "lt" "bc" "cd" "k" (some "n") true
  exact ⟨h3, h12 rfl⟩

end Blockstored
